import Mathlib

/-!
Shallow embedding of the job orchestration subsystem of the
speech-to-text repository (backend: Express + PostgreSQL + BullMQ +
WhisperX gateway), together with proofs about the embedded operations.

The embedding follows the TypeScript sources:
  * `types` module / SQL schema: job records and status enum;
  * `JobRepository` (repositories/JobRepository.ts) and `JobModel`
    (models/Job.ts): the Job Record Store access layer over the `jobs`
    table;
  * `WhisperService.transcribeStatic`: gateway invocation and error
    classification into response messages;
  * `QueueService.processTranscriptionJob` plus the BullMQ retry policy
    from `defaultJobOptions` (attempts 3, exponential backoff 5000,
    removeOnComplete 10, removeOnFail 5);
  * `DockerWhisperService`: on-demand container lifecycle (start check,
    idle timer);
  * `JobService`: the orchestration facade (createJob,
    downloadTranscription).

Databases, the file system and wall-clock time are passed explicitly:
the store is a list of job rows, the file system a list of existing
paths, `now` a natural-number timestamp.
-/

namespace STT

/-- Job status enum (`types`: PENDING/PROCESSING/COMPLETED/FAILED,
matching the SQL values 'pending'…'failed'). -/
inductive JobStatus
  | pending
  | processing
  | completed
  | failed
deriving DecidableEq, Repr

/-- A row of the `jobs` table, as mapped by `mapRowToJob`
(snake_case columns mapped to camelCase fields; nullable columns are
`Option`). Timestamps are modelled as naturals. -/
structure Job where
  id : String
  originalFilename : String
  filePath : String
  fileType : String
  fileSize : Nat
  status : JobStatus
  transcriptionText : Option String := none
  transcriptionFilePath : Option String := none
  language : Option String := none
  model : String
  createdAt : Nat
  updatedAt : Nat
  completedAt : Option Nat := none
  errorMessage : Option String := none
deriving DecidableEq, Repr

/-- `UpdateJobData` (types): the partial-update payload; a field equal to
`none` corresponds to `undefined` (field not supplied). -/
structure UpdateJobData where
  status : Option JobStatus := none
  transcriptionText : Option String := none
  transcriptionFilePath : Option String := none
  errorMessage : Option String := none
  completedAt : Option Nat := none
deriving DecidableEq, Repr

/-- JavaScript `a || b` on an optional string: `undefined`/`null` and the
empty string are falsy. -/
def jsOr (a : Option String) (b : String) : String :=
  match a with
  | some s => if s = "" then b else s
  | none => b

/-- JavaScript truthiness of an optional string (`undefined`/`null`/`""`
are falsy). -/
def jsTruthy (a : Option String) : Bool :=
  match a with
  | some s => s ≠ ""
  | none => false

/-- The column names of the `jobs` table (init-db / schema.sql). -/
def jobsColumns : List String :=
  ["id", "original_filename", "file_path", "file_type", "file_size",
   "language", "model", "status", "transcription_text",
   "transcription_file_path", "error_message", "created_at",
   "updated_at", "completed_at"]

/-- PostgreSQL folds an unquoted identifier to lower case before
resolving it against the schema. -/
def pgFoldIdent (s : String) : String := ⟨s.data.map Char.toLower⟩

/-- The `SET` clause columns built by `JobRepository.update` /
`JobModel.update` from the supplied fields, in source order (before the
always-appended `updated_at`). -/
def updateSetFields (d : UpdateJobData) : List String :=
  (if d.status.isSome then ["status"] else []) ++
  (if d.transcriptionText.isSome then ["transcription_text"] else []) ++
  (if d.transcriptionFilePath.isSome then ["transcription_file_path"] else []) ++
  (if d.errorMessage.isSome then ["error_message"] else []) ++
  (if d.completedAt.isSome then ["completed_at"] else [])

/-- Effect of the `UPDATE jobs SET …` statement on a single row: each
supplied field overwrites the stored value, `updated_at` is always set
to the current time, and every other column keeps its value. -/
def applySetClauses (j : Job) (d : UpdateJobData) (now : Nat) : Job :=
  { j with
    status := d.status.getD j.status
    transcriptionText := d.transcriptionText <|> j.transcriptionText
    transcriptionFilePath := d.transcriptionFilePath <|> j.transcriptionFilePath
    errorMessage := d.errorMessage <|> j.errorMessage
    completedAt := d.completedAt <|> j.completedAt
    updatedAt := now }

/-- Error raised by the Store update when no field is supplied
(`throw new Error('No fields to update')` / `'No data provided for update'`). -/
inductive RepoError
  | noFieldsToUpdate
deriving DecidableEq, Repr

/-- `UPDATE jobs SET … WHERE id = $n`: rewrite the rows whose id matches
(id is the primary key, so at most one row). -/
def updateRows (store : List Job) (id : String) (d : UpdateJobData) (now : Nat) :
    List Job :=
  store.map fun r => if r.id == id then applySetClauses r d now else r

/-- `SELECT * FROM jobs WHERE id = $1` (first matching row). -/
def findJob (store : List Job) (id : String) : Option Job :=
  store.find? fun j => j.id == id

/-- `JobRepository.update` (repositories/JobRepository.ts) and
`JobModel.update` (models/Job.ts), which build the same dynamic query:
reject an empty payload before touching the database, otherwise run the
`UPDATE … RETURNING *` statement; a result of `none` is the NotFound
case (no row matched). Returns the updated row (if any) and the store
after the statement. -/
def sqlUpdateJob (store : List Job) (id : String) (d : UpdateJobData) (now : Nat) :
    Except RepoError (Option Job × List Job) :=
  if updateSetFields d = [] then
    .error .noFieldsToUpdate
  else
    match findJob store id with
    | none => .ok (none, store)
    | some j => .ok (some (applySetClauses j d now), updateRows store id d now)

/-- Options of `JobRepository.findAll`, with the defaults from the
destructuring in the source (page 1, limit 10, orderBy 'createdAt',
orderDirection 'DESC'). -/
structure FindAllOptions where
  page : Nat := 1
  limit : Nat := 10
  status : Option JobStatus := none
  orderBy : String := "createdAt"
  orderDirection : String := "DESC"
deriving Repr

/-- Error raised by the SQL engine when a query references an identifier
that resolves to no column of the table (PostgreSQL 42703). -/
inductive SqlError
  | undefinedColumn (name : String)
deriving DecidableEq, Repr

/-- Sort key of a job row under an ORDER BY column name (only the
timestamp columns reachable from `FindAllOptions` matter). -/
def orderColumnKey (col : String) (j : Job) : Nat :=
  if col = "created_at" then j.createdAt
  else if col = "updated_at" then j.updatedAt
  else 0

/-- Insert into a list sorted descending by `key`. -/
def insertByKeyDesc (key : Job → Nat) (j : Job) : List Job → List Job
  | [] => [j]
  | x :: xs => if key x < key j then j :: x :: xs else x :: insertByKeyDesc key j xs

/-- Sort descending by `key` (insertion sort; SQL leaves ties unspecified). -/
def sortByKeyDesc (key : Job → Nat) : List Job → List Job
  | [] => []
  | x :: xs => insertByKeyDesc key x (sortByKeyDesc key xs)

/-- Insert into a list sorted ascending by `key`. -/
def insertByKeyAsc (key : Job → Nat) (j : Job) : List Job → List Job
  | [] => [j]
  | x :: xs => if key j < key x then j :: x :: xs else x :: insertByKeyAsc key j xs

/-- Sort ascending by `key`. -/
def sortByKeyAsc (key : Job → Nat) : List Job → List Job
  | [] => []
  | x :: xs => insertByKeyAsc key x (sortByKeyAsc key xs)

/-- `JobRepository.findAll`: optional status filter, a COUNT query for
the total, then the data query
`SELECT * FROM jobs … ORDER BY ${orderBy} ${orderDirection} LIMIT … OFFSET …`.
The `orderBy` option is interpolated into the SQL text unchanged, so it
is resolved as an unquoted identifier against the snake_case columns of
the `jobs` table; an identifier that resolves to no column makes the
data query fail. -/
def JobRepository.findAll (store : List Job) (options : FindAllOptions) :
    Except SqlError (List Job × Nat) :=
  let filtered := match options.status with
    | some s => store.filter fun j => j.status == s
    | none => store
  let total := filtered.length
  let col := pgFoldIdent options.orderBy
  if jobsColumns.contains col then
    let sorted :=
      if options.orderDirection == "DESC" then sortByKeyDesc (orderColumnKey col) filtered
      else sortByKeyAsc (orderColumnKey col) filtered
    let offset := (options.page - 1) * options.limit
    .ok ((sorted.drop offset).take options.limit, total)
  else
    .error (.undefinedColumn col)

/-- `WhisperServiceResponse` (types): the gateway's result object. -/
structure WhisperResponse where
  success : Bool
  transcription : Option String := none
  transcriptionFile : Option String := none
  error : Option String := none
deriving DecidableEq, Repr

/-- The condition the environment presents to one gateway invocation:
the source file is missing, the HTTP call is refused / errors / times
out, or the backend answers with a success or failure body.  This is the
case split `WhisperService.transcribeStatic` performs. -/
inductive GatewayOutcome
  | fileMissing (path : String)
  | connRefused
  | httpError (status : Nat) (statusText : String) (bodyError : Option String)
  | timedOut
  | rejected (bodyError : Option String)
  | succeeded (text : String) (file : String)
deriving DecidableEq, Repr

/-- `WhisperService.transcribeStatic` (services/WhisperService.ts): check
the file, post to the WhisperX service, and map every failure condition
to a `success:false` response with a classified `error` message:
`File not found: …` when the source file is gone, `WhisperX service is
not available` on ECONNREFUSED, `WhisperX service error: status - …` on
an HTTP error response, `WhisperX service request timeout` on
ETIMEDOUT, and the backend's own error (or a default) when the backend
body reports failure. -/
def WhisperService.transcribeStatic : GatewayOutcome → WhisperResponse
  | .fileMissing p =>
      { success := false, error := some ("File not found: " ++ p) }
  | .connRefused =>
      { success := false, error := some "WhisperX service is not available" }
  | .httpError status statusText bodyError =>
      { success := false,
        error := some ("WhisperX service error: " ++ toString status ++ " - " ++
          jsOr bodyError statusText) }
  | .timedOut =>
      { success := false, error := some "WhisperX service request timeout" }
  | .rejected bodyError =>
      { success := false,
        error := some (jsOr bodyError "Unknown error from WhisperX service") }
  | .succeeded text file =>
      { success := true, transcription := some text,
        transcriptionFile := some file }

/-- Store after an update statement, ignoring the returned row (the
worker discards `JobModel.update`'s return value); the error branch is
unreachable for the worker's payloads, which always carry `status`. -/
def storeAfterUpdate (store : List Job) (id : String) (d : UpdateJobData) (now : Nat) :
    List Job :=
  match sqlUpdateJob store id d now with
  | .ok (_, store') => store'
  | .error _ => store

/-- The worker's success test
(`result.success && result.transcription`, JS truthiness). -/
def workerSucceeds (resp : WhisperResponse) : Bool :=
  resp.success && jsTruthy resp.transcription

/-- The failing-attempt update payload: the worker throws
`Error(result.error || 'Transcription failed')`, catches it, and writes
status FAILED with `error.message || 'Unknown error occurred'`. -/
def failureUpdate (resp : WhisperResponse) : UpdateJobData :=
  { status := some .failed,
    errorMessage := some (jsOr (some (jsOr resp.error "Transcription failed"))
      "Unknown error occurred") }

/-- The successful-attempt update payload (status COMPLETED with text,
artifact path, completedAt). -/
def successUpdate (resp : WhisperResponse) (now : Nat) : UpdateJobData :=
  { status := some .completed,
    transcriptionText := resp.transcription,
    transcriptionFilePath := resp.transcriptionFile,
    completedAt := some now }

/-- One run of `QueueService.processTranscriptionJob` on a dequeued
entry: write status PROCESSING, call the gateway (its response is the
`resp` argument), then either write COMPLETED with the result, or write
FAILED with the error message and rethrow (the returned flag records
whether the handler threw, which is what makes BullMQ retry).  Returns
the store after the attempt, the update payloads written, and the
thrown flag. -/
def processTranscriptionJob (store : List Job) (jobId : String)
    (resp : WhisperResponse) (now : Nat) : List Job × List UpdateJobData × Bool :=
  let u1 : UpdateJobData := { status := some .processing }
  let store1 := storeAfterUpdate store jobId u1 now
  if workerSucceeds resp then
    let u2 := successUpdate resp now
    (storeAfterUpdate store1 jobId u2 now, [u1, u2], false)
  else
    let u2 := failureUpdate resp
    (storeAfterUpdate store1 jobId u2 now, [u1, u2], true)

/-- `defaultJobOptions.attempts` (QueueService constructor). -/
def bullAttempts : Nat := 3

/-- `defaultJobOptions.backoff.delay` (QueueService constructor). -/
def bullBackoffBase : Nat := 5000

/-- BullMQ built-in exponential backoff: the delay before retry number
`attemptsMade` (1-based) is `delay * 2^(attemptsMade - 1)`. -/
def bullBackoffDelay (attemptsMade : Nat) : Nat :=
  bullBackoffBase * 2 ^ (attemptsMade - 1)

/-- Outcome of running one queue entry to completion under the BullMQ
retry policy: final store, number of gateway invocations, the update
payloads written to the store in order, and the backoff delays of the
re-enqueues that occurred. -/
structure RunOutcome where
  store : List Job
  invocations : Nat
  writes : List UpdateJobData
  delays : List Nat
deriving Repr

/-- BullMQ's processing of one queue entry with `remaining` attempts
left and `made` attempts already made: run the handler; if it threw and
attempts remain, re-enqueue with the exponential backoff delay and run
again, otherwise stop.  `gateway i` is the response the i-th gateway
invocation (0-based) would produce. -/
def runAttempts (gateway : Nat → WhisperResponse) (now : Nat) (jobId : String) :
    List Job → Nat → Nat → RunOutcome
  | store, _, 0 => { store := store, invocations := 0, writes := [], delays := [] }
  | store, made, remaining + 1 =>
      let r := processTranscriptionJob store jobId (gateway made) now
      if r.2.2 ∧ remaining ≠ 0 then
        let rest := runAttempts gateway now jobId r.1 (made + 1) remaining
        { store := rest.store,
          invocations := rest.invocations + 1,
          writes := r.2.1 ++ rest.writes,
          delays := bullBackoffDelay (made + 1) :: rest.delays }
      else
        { store := r.1, invocations := 1, writes := r.2.1, delays := [] }

/-- A queue entry's whole lifetime under `defaultJobOptions`
(attempts 3, exponential backoff base 5000). -/
def runJob (gateway : Nat → WhisperResponse) (store : List Job)
    (jobId : String) (now : Nat) : RunOutcome :=
  runAttempts gateway now jobId store 0 bullAttempts

/-- The sequence of `status` values the worker wrote during the run. -/
def statusTrace (o : RunOutcome) : List JobStatus :=
  o.writes.filterMap fun d => d.status

/-- `defaultJobOptions.removeOnComplete` (QueueService constructor):
BullMQ keeps at most this many completed queue entries. -/
def removeOnComplete : Nat := 10

/-- `defaultJobOptions.removeOnFail` (QueueService constructor): BullMQ
keeps at most this many failed queue entries. -/
def removeOnFail : Nat := 5

/-- The sets of queue entries BullMQ retains, by state; completed and
failed entries are trimmed to the retention caps, newest first. -/
structure BullQueue where
  waitingIds : List String := []
  activeIds : List String := []
  completedIds : List String := []
  failedIds : List String := []
deriving DecidableEq, Repr

/-- `QueueStatusResponse` (types). -/
structure QueueStatusResponse where
  waiting : Nat
  active : Nat
  completed : Nat
  failed : Nat
deriving DecidableEq, Repr

/-- `QueueService.getQueueStatus`: the lengths of the entry lists the
queue currently retains (getWaiting/getActive/getCompleted/getFailed);
the Job Record Store is not consulted. -/
def QueueService.getQueueStatus (q : BullQueue) : QueueStatusResponse :=
  { waiting := q.waitingIds.length,
    active := q.activeIds.length,
    completed := q.completedIds.length,
    failed := q.failedIds.length }

/-- BullMQ moves a finished entry to the completed set and trims it to
`removeOnComplete` entries. -/
def retainCompleted (q : BullQueue) (jobId : String) : BullQueue :=
  { q with completedIds := (jobId :: q.completedIds).take removeOnComplete }

/-- BullMQ moves an exhausted entry to the failed set and trims it to
`removeOnFail` entries. -/
def retainFailed (q : BullQueue) (jobId : String) : BullQueue :=
  { q with failedIds := (jobId :: q.failedIds).take removeOnFail }

/-- Store plus queue: the state `getQueueStatus` is claimed to reflect. -/
structure OrchestratorState where
  store : List Job
  queue : BullQueue
deriving Repr

/-- One job processed to successful completion: the worker attempt
succeeds (store updated through `processTranscriptionJob`) and BullMQ
retains the completed entry subject to the cap. -/
def completeJobStep (st : OrchestratorState) (jobId : String)
    (text file : String) (now : Nat) : OrchestratorState :=
  { store := (processTranscriptionJob st.store jobId
      (WhisperService.transcribeStatic (.succeeded text file)) now).1,
    queue := retainCompleted st.queue jobId }

/-- Process each listed job to successful completion, in order. -/
def completeAll (st : OrchestratorState) (ids : List String) (now : Nat) :
    OrchestratorState :=
  ids.foldl (fun s i => completeJobStep s i "text" "out.txt" now) st

/-- Number of store records in a given status. -/
def countStatus (store : List Job) (s : JobStatus) : Nat :=
  (store.filter fun j => j.status == s).length

/-! ### On-demand Docker backend (DockerWhisperService)

Two small models: an interleaving model of concurrent
`transcribeStatic` callers racing through the
`isContainerRunning`/`startContainer` prologue (no lock exists in the
source), and a timed model of the idle-stop timer. -/

/-- Program counter of one concurrent `transcribeStatic` caller in its
container prologue: `0` — about to run `isContainerRunning()`; `1` —
has observed the answer and is about to act on it; `2` — past the
prologue (container ensured, proceeding to the request). -/
structure DockerCaller where
  pc : Nat := 0
  observedRunning : Bool := false
deriving DecidableEq, Repr

/-- Shared state of the race: whether the container runs, how many
start sequences (`startContainer`) have been executed, and the two
callers. -/
structure DockerRaceState where
  running : Bool := false
  startCount : Nat := 0
  a : DockerCaller := {}
  b : DockerCaller := {}
deriving DecidableEq, Repr

/-- One atomic step of a caller, as the source orders them: at `pc 0`
it evaluates `isContainerRunning()` and records the answer; at `pc 1`,
if it observed a running container it proceeds (reuse), otherwise it
executes `startContainer()` — which force-removes any existing
container, starts a fresh one and waits for health — leaving the
container running and incrementing the start-sequence count.  There is
no lock anywhere in this path. -/
def dockerCallerStep (running : Bool) (startCount : Nat) (c : DockerCaller) :
    Bool × Nat × DockerCaller :=
  match c.pc with
  | 0 => (running, startCount, { pc := 1, observedRunning := running })
  | 1 =>
      if c.observedRunning then (running, startCount, { c with pc := 2 })
      else (true, startCount + 1, { c with pc := 2 })
  | _ => (running, startCount, c)

/-- Which caller the scheduler lets take the next step. -/
inductive CallerId
  | A
  | B
deriving DecidableEq, Repr

/-- Run one scheduled step of the chosen caller. -/
def dockerRaceStep (s : DockerRaceState) : CallerId → DockerRaceState
  | .A =>
      let r := dockerCallerStep s.running s.startCount s.a
      { s with running := r.1, startCount := r.2.1, a := r.2.2 }
  | .B =>
      let r := dockerCallerStep s.running s.startCount s.b
      { s with running := r.1, startCount := r.2.1, b := r.2.2 }

/-- Run a whole interleaving schedule. -/
def dockerRaceRun (s : DockerRaceState) (sched : List CallerId) : DockerRaceState :=
  sched.foldl dockerRaceStep s

/-- `IDLE_TIMEOUT` (DockerWhisperService): 5 minutes in ms. -/
def IDLE_TIMEOUT : Nat := 300000

/-- `REQUEST_TIMEOUT` (DockerWhisperService): 10 minutes in ms. -/
def REQUEST_TIMEOUT : Nat := 600000

/-- Timed state of the on-demand backend handle: whether the container
runs and when the pending idle-stop timer fires (if any). -/
structure HandleState where
  running : Bool
  idleDeadline : Option Nat
deriving DecidableEq, Repr

/-- `scheduleIdleStop`: clear any pending idle timer and arm a new one
`IDLE_TIMEOUT` from now. -/
def scheduleIdleStop (now : Nat) (s : HandleState) : HandleState :=
  { s with idleDeadline := some (now + IDLE_TIMEOUT) }

/-- The idle timer firing at its deadline: `stopContainer` stops and
removes the container. -/
def fireIdle (now : Nat) (s : HandleState) : HandleState :=
  if s.idleDeadline = some now then { running := false, idleDeadline := none }
  else s

/-- The prologue of `DockerWhisperService.transcribeStatic`, in source
order: ensure the container is running (starting it and waiting for
health if it is not), then `scheduleIdleStop()` — the timer is reset
here, BEFORE the transcription request is sent; nothing resets it when
the request later succeeds. -/
def transcribeBegin (now : Nat) (s : HandleState) : HandleState :=
  let s1 := if s.running then s else { s with running := true }
  scheduleIdleStop now s1

/-! ### Orchestration facade (JobService) -/

/-- `CreateJobData` (types): the submission payload. -/
structure CreateJobData where
  originalFilename : String
  filePath : String
  fileType : String
  fileSize : Nat
  language : Option String := none
  model : String
deriving DecidableEq, Repr

/-- The facade's error taxonomy (errors/AppError.ts), restricted to the
classes the embedded operations raise. -/
inductive ServiceError
  | validation (message : String)
  | notFound (resource : String) (id : Option String)
  | internal (message : String)
deriving DecidableEq, Repr

/-- `fs.existsSync` over an explicit file system (list of paths). -/
def fsExists (fsys : List String) (p : String) : Bool := fsys.contains p

/-- `JobRepository.create`: insert a fresh row with a generated id,
status forced to PENDING, and created/updated timestamps set to now. -/
def JobRepository.create (d : CreateJobData) (newId : String) (now : Nat) : Job :=
  { id := newId,
    originalFilename := d.originalFilename,
    filePath := d.filePath,
    fileType := d.fileType,
    fileSize := d.fileSize,
    language := d.language,
    model := d.model,
    status := .pending,
    createdAt := now,
    updatedAt := now }

/-- `JobService.createJob`: reject a payload with a missing (falsy)
required field, then reject a payload whose `filePath` does not exist on
disk; only then create the record and enqueue the transcription job.
The result carries the store and the queued-job list so the error
branches visibly leave both untouched. -/
def JobService.createJob (fsys : List String) (store : List Job)
    (queued : List String) (d : CreateJobData) (newId : String) (now : Nat) :
    Except ServiceError Job × List Job × List String :=
  if d.originalFilename == "" || d.filePath == "" || d.model == "" then
    (.error (.validation "Missing required fields: originalFilename, filePath, model"),
      store, queued)
  else if ¬ fsExists fsys d.filePath then
    (.error (.validation "File does not exist"), store, queued)
  else
    let job := JobRepository.create d newId now
    (.ok job, store ++ [job], queued ++ [job.id])

/-- `JobService.downloadTranscription`: load the job (NotFound if the id
is unknown), reject a job that is not COMPLETED, report NotFound when
the artifact path is falsy or the artifact file is gone, and otherwise
return the artifact path and the `transcription_<original>.txt`
download name. -/
def JobService.downloadTranscription (fsys : List String) (store : List Job)
    (id : String) : Except ServiceError (String × String) :=
  match findJob store id with
  | none => .error (.notFound "Job" (some id))
  | some job =>
      if job.status ≠ .completed then
        .error (.validation "Job is not completed yet")
      else if ¬ (jsTruthy job.transcriptionFilePath &&
          fsExists fsys (job.transcriptionFilePath.getD "")) then
        .error (.notFound "Transcription file" none)
      else
        .ok (job.transcriptionFilePath.getD "",
          "transcription_" ++ job.originalFilename ++ ".txt")

/-! ## Helper lemmas -/

theorem applySetClauses_id (j : Job) (d : UpdateJobData) (now : Nat) :
    (applySetClauses j d now).id = j.id := rfl

theorem findJob_updateRows (store : List Job) (id : String) (d : UpdateJobData)
    (now : Nat) :
    findJob (updateRows store id d now) id =
      (findJob store id).map fun j => applySetClauses j d now := by
  induction store with
  | nil => rfl
  | cons x xs ih =>
      simp only [updateRows, List.map_cons, findJob] at *
      by_cases hx : x.id == id
      · rw [if_pos hx]
        simp only [List.find?_cons, applySetClauses_id, hx]
        rfl
      · have hx0 : (x.id == id) = false := by simpa using hx
        rw [if_neg hx]
        simp only [List.find?_cons, hx0]
        exact ih

theorem updateSetFields_ne_nil_of_status (d : UpdateJobData)
    (h : d.status.isSome) : updateSetFields d ≠ [] := by
  unfold updateSetFields
  simp [h]

theorem sqlUpdateJob_of_fields (store : List Job) (id : String) (d : UpdateJobData)
    (now : Nat) (h : updateSetFields d ≠ []) :
    sqlUpdateJob store id d now =
      match findJob store id with
      | none => .ok (none, store)
      | some j => .ok (some (applySetClauses j d now), updateRows store id d now) := by
  unfold sqlUpdateJob
  rw [if_neg h]

theorem findJob_storeAfterUpdate (store : List Job) (id : String)
    (d : UpdateJobData) (now : Nat) (hd : d.status.isSome) :
    findJob (storeAfterUpdate store id d now) id =
      (findJob store id).map fun j => applySetClauses j d now := by
  unfold storeAfterUpdate
  rw [sqlUpdateJob_of_fields store id d now (updateSetFields_ne_nil_of_status d hd)]
  cases hf : findJob store id with
  | none => simp [hf]
  | some j => simp [hf, findJob_updateRows]

/-! ## Demo records used by concrete witnesses and counterexamples -/

/-- A concrete pending job record. -/
def demoJobA : Job :=
  { id := "a", originalFilename := "f.mp3", filePath := "/u/f.mp3",
    fileType := "audio", fileSize := 10, model := "base", status := .pending,
    createdAt := 1, updatedAt := 1 }

/-- A concrete partial update supplying only `status`. -/
def demoUpd : UpdateJobData := { status := some .completed }

/-! ## Claims -/

/-- C5: for every job record and every update call, if at least one field
is supplied the update rewrites exactly the supplied fields plus
`updatedAt` (every other column of the record keeps its value, and rows
with a different id stay in the store untouched); supplying no fields
fails with the InvalidUpdate error before touching the store; an unknown
id yields the NotFound result (`none`). -/
theorem jobStore_update_contract (store : List Job) (id : String)
    (d : UpdateJobData) (now : Nat) :
    (updateSetFields d = [] →
      sqlUpdateJob store id d now = .error .noFieldsToUpdate) ∧
    (updateSetFields d ≠ [] → findJob store id = none →
      sqlUpdateJob store id d now = .ok (none, store)) ∧
    (∀ j, updateSetFields d ≠ [] → findJob store id = some j →
      sqlUpdateJob store id d now =
        .ok (some (applySetClauses j d now), updateRows store id d now) ∧
      (applySetClauses j d now).updatedAt = now ∧
      (applySetClauses j d now).id = j.id ∧
      (applySetClauses j d now).originalFilename = j.originalFilename ∧
      (applySetClauses j d now).filePath = j.filePath ∧
      (applySetClauses j d now).fileType = j.fileType ∧
      (applySetClauses j d now).fileSize = j.fileSize ∧
      (applySetClauses j d now).language = j.language ∧
      (applySetClauses j d now).model = j.model ∧
      (applySetClauses j d now).createdAt = j.createdAt ∧
      (d.status = none → (applySetClauses j d now).status = j.status) ∧
      (∀ v, d.status = some v → (applySetClauses j d now).status = v) ∧
      (d.transcriptionText = none →
        (applySetClauses j d now).transcriptionText = j.transcriptionText) ∧
      (∀ v, d.transcriptionText = some v →
        (applySetClauses j d now).transcriptionText = some v) ∧
      (d.transcriptionFilePath = none →
        (applySetClauses j d now).transcriptionFilePath = j.transcriptionFilePath) ∧
      (∀ v, d.transcriptionFilePath = some v →
        (applySetClauses j d now).transcriptionFilePath = some v) ∧
      (d.errorMessage = none →
        (applySetClauses j d now).errorMessage = j.errorMessage) ∧
      (∀ v, d.errorMessage = some v →
        (applySetClauses j d now).errorMessage = some v) ∧
      (d.completedAt = none →
        (applySetClauses j d now).completedAt = j.completedAt) ∧
      (∀ v, d.completedAt = some v →
        (applySetClauses j d now).completedAt = some v) ∧
      (∀ r ∈ store, r.id ≠ id → r ∈ updateRows store id d now)) := by
  refine ⟨fun h => by unfold sqlUpdateJob; rw [if_pos h], fun h hf => ?_, fun j h hf => ?_⟩
  · rw [sqlUpdateJob_of_fields store id d now h, hf]
  · refine ⟨by rw [sqlUpdateJob_of_fields store id d now h, hf], rfl, rfl, rfl, rfl,
      rfl, rfl, rfl, rfl, rfl, ?_, ?_, ?_, ?_, ?_, ?_, ?_, ?_, ?_, ?_, ?_⟩
    · intro hs; simp [applySetClauses, hs]
    · intro v hs; simp [applySetClauses, hs]
    · intro hs; simp [applySetClauses, hs]
    · intro v hs; simp [applySetClauses, hs]
    · intro hs; simp [applySetClauses, hs]
    · intro v hs; simp [applySetClauses, hs]
    · intro hs; simp [applySetClauses, hs]
    · intro v hs; simp [applySetClauses, hs]
    · intro hs; simp [applySetClauses, hs]
    · intro v hs; simp [applySetClauses, hs]
    · intro r hr hne
      unfold updateRows
      exact List.mem_map.mpr ⟨r, hr, by rw [if_neg (by simpa using hne)]⟩

/-- C5 witness: updating the demo record's status rewrites that record
as `applySetClauses` describes (in particular only `status` and
`updatedAt` change). -/
theorem jobStore_update_contract_witness :
    sqlUpdateJob [demoJobA] "a" demoUpd 9 =
      .ok (some (applySetClauses demoJobA demoUpd 9),
        updateRows [demoJobA] "a" demoUpd 9) ∧
    (applySetClauses demoJobA demoUpd 9).updatedAt = 9 :=
  ⟨((jobStore_update_contract [demoJobA] "a" demoUpd 9).2.2 demoJobA
      (by decide) (by rfl)).1,
   ((jobStore_update_contract [demoJobA] "a" demoUpd 9).2.2 demoJobA
      (by decide) (by rfl)).2.1⟩

/-- C6: the claim says `list` with no explicit ordering succeeds and
orders by creation time descending.  The code is a slip: the data query
interpolates the default `orderBy` value `createdAt` verbatim, and the
unquoted identifier folds to `createdat`, which is not a column of the
snake_case `jobs` schema, so the query fails for every store instead of
returning rows. -/
theorem findAll_default_order_errors (store : List Job) :
    JobRepository.findAll store {} = .error (.undefinedColumn "createdat") := by
  rfl

/-- Closed form of the status values the worker writes while BullMQ
retries an entry, starting at attempt `made` with `r` attempts left:
each attempt writes Processing then a terminal status; a throw with
attempts remaining leads to another attempt. -/
def predictedTrace (gateway : Nat → WhisperResponse) : Nat → Nat → List JobStatus
  | _, 0 => []
  | made, r + 1 =>
      if workerSucceeds (gateway made) then [.processing, .completed]
      else if r ≠ 0 then
        .processing :: .failed :: predictedTrace gateway (made + 1) r
      else [.processing, .failed]

theorem statusTrace_runAttempts (gateway : Nat → WhisperResponse) (now : Nat)
    (jobId : String) :
    ∀ (r : Nat) (store : List Job) (made : Nat),
      statusTrace (runAttempts gateway now jobId store made r) =
        predictedTrace gateway made r := by
  intro r
  induction r with
  | zero => intro store made; rfl
  | succ r ih =>
      intro store made
      by_cases h : workerSucceeds (gateway made)
      · simp [runAttempts, predictedTrace, processTranscriptionJob, h, statusTrace,
          successUpdate, List.filterMap]
      · by_cases hr : r = 0
        · subst hr
          simp [runAttempts, predictedTrace, processTranscriptionJob, h, statusTrace,
            failureUpdate, List.filterMap]
        · simp only [runAttempts, predictedTrace, processTranscriptionJob, h,
            Bool.false_eq_true, if_false, hr, ne_eq, not_false_iff, and_true,
            if_true, statusTrace, List.filterMap_append]
          simp only [statusTrace] at ih
          rw [ih]
          simp [List.filterMap, failureUpdate]

theorem predictedTrace_ne_nil (gateway : Nat → WhisperResponse) :
    ∀ (r made : Nat), r ≠ 0 → predictedTrace gateway made r ≠ [] := by
  intro r made h
  cases r with
  | zero => exact absurd rfl h
  | succ r =>
      unfold predictedTrace
      by_cases hs : workerSucceeds (gateway made) <;>
        by_cases hr : r = 0 <;> simp [hs, hr]

theorem predictedTrace_not_pending (gateway : Nat → WhisperResponse) :
    ∀ (r made : Nat), JobStatus.pending ∉ predictedTrace gateway made r := by
  intro r
  induction r with
  | zero => intro made; simp [predictedTrace]
  | succ r ih =>
      intro made
      unfold predictedTrace
      by_cases hs : workerSucceeds (gateway made)
      · simp [hs]
      · by_cases hr : r = 0 <;> simp [hs, hr, ih]

theorem predictedTrace_completed_last (gateway : Nat → WhisperResponse) :
    ∀ (r made k : Nat),
      (predictedTrace gateway made r)[k]? = some JobStatus.completed →
      k + 1 = (predictedTrace gateway made r).length := by
  intro r
  induction r with
  | zero => intro made k h; simp [predictedTrace] at h
  | succ r ih =>
      intro made k h
      unfold predictedTrace at h ⊢
      by_cases hs : workerSucceeds (gateway made)
      · rw [if_pos hs] at h ⊢
        match k, h with
        | 0, h => simp at h
        | 1, h => rfl
        | k + 2, h => simp at h
      · rw [if_neg hs] at h ⊢
        by_cases hr : r = 0
        · rw [if_neg (by simp [hr])] at h ⊢
          match k, h with
          | 0, h => simp at h
          | 1, h => simp at h
          | k + 2, h => simp at h
        · rw [if_pos hr] at h ⊢
          match k, h with
          | 0, h => simp at h
          | 1, h => simp at h
          | k + 2, h =>
              have h' : (predictedTrace gateway (made + 1) r)[k]? =
                  some JobStatus.completed := by simpa using h
              have := ih (made + 1) k h'
              simp only [List.length_cons]
              omega

theorem predictedTrace_getLast_terminal (gateway : Nat → WhisperResponse) :
    ∀ (r made : Nat), r ≠ 0 →
      (predictedTrace gateway made r).getLast? = some JobStatus.completed ∨
      (predictedTrace gateway made r).getLast? = some JobStatus.failed := by
  intro r
  induction r with
  | zero => intro made h; exact absurd rfl h
  | succ r ih =>
      intro made _
      unfold predictedTrace
      by_cases hs : workerSucceeds (gateway made)
      · rw [if_pos hs]; left; rfl
      · rw [if_neg hs]
        by_cases hr : r = 0
        · rw [if_neg (by simp [hr])]; right; rfl
        · rw [if_pos hr, List.getLast?_cons_cons]
          have hne := predictedTrace_ne_nil gateway r (made + 1) hr
          cases hT : predictedTrace gateway (made + 1) r with
          | nil => exact absurd hT hne
          | cons t ts =>
              rw [List.getLast?_cons_cons]
              have hlast := ih (made + 1) hr
              rw [hT] at hlast
              exact hlast

/-- A gateway whose backend connection is always refused
(`BackendUnavailable` in the spec's taxonomy). -/
def alwaysUnavailGateway : Nat → WhisperResponse :=
  fun _ => WhisperService.transcribeStatic .connRefused

/-- C1 counterexample: running one queue entry against an
always-unavailable backend, the worker's second status write is Failed
and its third is Processing again — a Failed job is moved back to
Processing by the next retry attempt, so Failed set by a non-final
attempt is not terminal. -/
theorem worker_failed_then_processing_cex :
    (statusTrace (runJob alwaysUnavailGateway [demoJobA] "a" 7))[1]? =
      some JobStatus.failed ∧
    (statusTrace (runJob alwaysUnavailGateway [demoJobA] "a" 7))[2]? =
      some JobStatus.processing := ⟨rfl, rfl⟩

/-- C1 amended: the worker writes Processing at the start of every
attempt and a terminal status at its end; on a non-final failed attempt
the Failed status is followed by Processing again (the trace equals
`predictedTrace`); Pending is never written; once Completed is written
nothing follows it; and the last write of the run is terminal. -/
theorem worker_status_trace_shape (gateway : Nat → WhisperResponse)
    (store : List Job) (jobId : String) (now : Nat) :
    statusTrace (runJob gateway store jobId now) =
      predictedTrace gateway 0 bullAttempts ∧
    JobStatus.pending ∉ statusTrace (runJob gateway store jobId now) ∧
    (∀ k, (statusTrace (runJob gateway store jobId now))[k]? =
        some JobStatus.completed →
      k + 1 = (statusTrace (runJob gateway store jobId now)).length) ∧
    ((statusTrace (runJob gateway store jobId now)).getLast? =
        some JobStatus.completed ∨
      (statusTrace (runJob gateway store jobId now)).getLast? =
        some JobStatus.failed) := by
  have ht : statusTrace (runJob gateway store jobId now) =
      predictedTrace gateway 0 bullAttempts :=
    statusTrace_runAttempts gateway now jobId bullAttempts store 0
  refine ⟨ht, ?_, ?_, ?_⟩
  · rw [ht]; exact predictedTrace_not_pending gateway bullAttempts 0
  · intro k h
    rw [ht] at h ⊢
    exact predictedTrace_completed_last gateway bullAttempts 0 k h
  · rw [ht]
    exact predictedTrace_getLast_terminal gateway bullAttempts 0 (by decide)

/-- A gateway whose backend always succeeds. -/
def alwaysOkGateway : Nat → WhisperResponse :=
  fun _ => WhisperService.transcribeStatic (.succeeded "hello" "/t/out.txt")

/-- C1 witness: on a successful run the Completed write is the final
one (position 1 of the two-element trace). -/
theorem worker_status_trace_shape_witness :
    1 + 1 = (statusTrace (runJob alwaysOkGateway [demoJobA] "a" 7)).length :=
  (worker_status_trace_shape alwaysOkGateway [demoJobA] "a" 7).2.2.1 1 rfl

theorem findJob_processTranscriptionJob (store : List Job) (jobId : String)
    (resp : WhisperResponse) (now : Nat) :
    findJob (processTranscriptionJob store jobId resp now).1 jobId =
      (findJob store jobId).map fun j =>
        applySetClauses (applySetClauses j { status := some .processing } now)
          (if workerSucceeds resp then successUpdate resp now
            else failureUpdate resp) now := by
  by_cases h : workerSucceeds resp
  · simp only [processTranscriptionJob, h, if_true]
    rw [findJob_storeAfterUpdate _ jobId (successUpdate resp now) now rfl,
      findJob_storeAfterUpdate _ jobId { status := some .processing } now rfl]
    cases hf : findJob store jobId <;> simp [hf, h]
  · simp only [processTranscriptionJob, h, Bool.false_eq_true, if_false]
    rw [findJob_storeAfterUpdate _ jobId (failureUpdate resp) now rfl,
      findJob_storeAfterUpdate _ jobId { status := some .processing } now rfl]
    cases hf : findJob store jobId <;> simp [hf, h]

theorem string_append_ne_empty (s p : String) (hs : s.length ≠ 0) :
    (s ++ p) ≠ "" := by
  intro h
  have h2 := congrArg String.length h
  simp [String.length_append] at h2
  exact hs h2.1

/-- C3: with a gateway that fails every attempt with the transient
`BackendUnavailable` classification (connection refused), the scheduler
invokes the gateway exactly `attempts = 3` times, the two re-enqueues
are delayed by the exponential backoff schedule (5000·2⁰ then 5000·2¹
ms), and the job's final stored status is Failed with `errorMessage`
equal to the last attempt's classified reason. -/
theorem transient_retry_cap (gateway : Nat → WhisperResponse) (store : List Job)
    (jobId : String) (now : Nat) (j : Job)
    (hg : gateway = fun _ => WhisperService.transcribeStatic .connRefused)
    (hj : findJob store jobId = some j) :
    (runJob gateway store jobId now).invocations = bullAttempts ∧
    (runJob gateway store jobId now).delays =
      [bullBackoffDelay 1, bullBackoffDelay 2] ∧
    (runJob gateway store jobId now).delays = [5000, 10000] ∧
    ∃ j', findJob (runJob gateway store jobId now).store jobId = some j' ∧
      j'.status = .failed ∧
      j'.errorMessage = some "WhisperX service is not available" := by
  subst hg
  refine ⟨rfl, rfl, rfl, ?_⟩
  have hstore :
      (runJob (fun _ => WhisperService.transcribeStatic .connRefused)
        store jobId now).store =
      (processTranscriptionJob (processTranscriptionJob
        (processTranscriptionJob store jobId
          (WhisperService.transcribeStatic .connRefused) now).1 jobId
        (WhisperService.transcribeStatic .connRefused) now).1 jobId
        (WhisperService.transcribeStatic .connRefused) now).1 := rfl
  rw [hstore, findJob_processTranscriptionJob, findJob_processTranscriptionJob,
    findJob_processTranscriptionJob, hj]
  exact ⟨_, rfl, rfl, rfl⟩

/-- C3 witness: the retry-cap theorem applied to the concrete
always-unavailable gateway and the demo store. -/
theorem transient_retry_cap_witness :
    (runJob alwaysUnavailGateway [demoJobA] "a" 7).invocations = bullAttempts ∧
    (runJob alwaysUnavailGateway [demoJobA] "a" 7).delays =
      [bullBackoffDelay 1, bullBackoffDelay 2] ∧
    (runJob alwaysUnavailGateway [demoJobA] "a" 7).delays = [5000, 10000] ∧
    ∃ j', findJob (runJob alwaysUnavailGateway [demoJobA] "a" 7).store "a" =
        some j' ∧
      j'.status = .failed ∧
      j'.errorMessage = some "WhisperX service is not available" :=
  transient_retry_cap alwaysUnavailGateway [demoJobA] "a" 7 demoJobA rfl rfl

/-- A gateway for which the source file is permanently missing
(`InputMissing` in the spec's taxonomy). -/
def alwaysFileMissingGateway : Nat → WhisperResponse :=
  fun _ => WhisperService.transcribeStatic (.fileMissing "/app/uploads/gone.mp3")

/-- C2 counterexample: with a gateway permanently failing with the
InputMissing classification, the scheduler still invokes the gateway 3
times (not once) and re-enqueues the entry twice with backoff delays. -/
theorem inputMissing_retried_cex :
    (runJob alwaysFileMissingGateway [demoJobA] "a" 7).invocations = 3 ∧
    (runJob alwaysFileMissingGateway [demoJobA] "a" 7).invocations ≠ 1 ∧
    (runJob alwaysFileMissingGateway [demoJobA] "a" 7).delays = [5000, 10000] := by
  exact ⟨rfl, by decide, rfl⟩

/-- C2 amended: the worker performs no error classification — on a
permanent InputMissing failure it sets the job's status to Failed after
each attempt but rethrows, so BullMQ re-enqueues the entry and the
gateway is invoked the full `attempts = 3` times (with backoff delays in
between) before Failed becomes final; the final record carries the
file-not-found message. -/
theorem inputMissing_all_attempts (gateway : Nat → WhisperResponse)
    (store : List Job) (jobId : String) (now : Nat) (p : String) (j : Job)
    (hg : gateway = fun _ => WhisperService.transcribeStatic (.fileMissing p))
    (hj : findJob store jobId = some j) :
    (runJob gateway store jobId now).invocations = bullAttempts ∧
    (runJob gateway store jobId now).delays = [5000, 10000] ∧
    ∃ j', findJob (runJob gateway store jobId now).store jobId = some j' ∧
      j'.status = .failed ∧
      j'.errorMessage = some ("File not found: " ++ p) := by
  subst hg
  refine ⟨rfl, rfl, ?_⟩
  have hstore :
      (runJob (fun _ => WhisperService.transcribeStatic (.fileMissing p))
        store jobId now).store =
      (processTranscriptionJob (processTranscriptionJob
        (processTranscriptionJob store jobId
          (WhisperService.transcribeStatic (.fileMissing p)) now).1 jobId
        (WhisperService.transcribeStatic (.fileMissing p)) now).1 jobId
        (WhisperService.transcribeStatic (.fileMissing p)) now).1 := rfl
  rw [hstore, findJob_processTranscriptionJob, findJob_processTranscriptionJob,
    findJob_processTranscriptionJob, hj]
  have hne : ("File not found: " ++ p) ≠ "" :=
    string_append_ne_empty _ _ (by decide)
  refine ⟨_, rfl, rfl, ?_⟩
  simp [applySetClauses, failureUpdate, workerSucceeds,
    WhisperService.transcribeStatic, jsTruthy, jsOr, hne]

/-- C2 witness: the amended theorem applied to the concrete
file-missing gateway and the demo store. -/
theorem inputMissing_all_attempts_witness :
    (runJob alwaysFileMissingGateway [demoJobA] "a" 7).invocations =
      bullAttempts ∧
    (runJob alwaysFileMissingGateway [demoJobA] "a" 7).delays = [5000, 10000] ∧
    ∃ j', findJob (runJob alwaysFileMissingGateway [demoJobA] "a" 7).store "a" =
        some j' ∧
      j'.status = .failed ∧
      j'.errorMessage = some ("File not found: " ++ "/app/uploads/gone.mp3") :=
  inputMissing_all_attempts alwaysFileMissingGateway [demoJobA] "a" 7
    "/app/uploads/gone.mp3" demoJobA rfl rfl

/-- C4 counterexample: under the interleaving where both callers run
`isContainerRunning()` before either acts, both observe a stopped
container and both execute the start sequence — two start sequences,
not one.  There is no lifecycle lock in `DockerWhisperService`. -/
theorem docker_duplicate_start_cex :
    (dockerRaceRun {} [.A, .B, .A, .B]).startCount = 2 ∧
    (dockerRaceRun {} [.A, .B, .A, .B]).startCount ≠ 1 :=
  ⟨rfl, by decide⟩

/-- How many start sequences a caller can still contribute: one until it
has passed its act step. -/
def callerBudget (c : DockerCaller) : Nat :=
  if c.pc < 2 then 1 else 0

theorem dockerCallerStep_budget (running : Bool) (startCount : Nat)
    (c : DockerCaller) :
    (dockerCallerStep running startCount c).2.1 +
        callerBudget (dockerCallerStep running startCount c).2.2 ≤
      startCount + callerBudget c := by
  rcases c with ⟨pc, obs⟩
  match pc with
  | 0 => simp [dockerCallerStep, callerBudget]
  | 1 =>
      by_cases h : obs <;> simp [dockerCallerStep, callerBudget, h]
  | n + 2 => simp [dockerCallerStep, callerBudget]

/-- Start sequences already executed plus start sequences the two
callers can still contribute. -/
def raceBudget (s : DockerRaceState) : Nat :=
  s.startCount + callerBudget s.a + callerBudget s.b

theorem dockerRaceStep_budget (s : DockerRaceState) (c : CallerId) :
    raceBudget (dockerRaceStep s c) ≤ raceBudget s := by
  cases c with
  | A =>
      have h := dockerCallerStep_budget s.running s.startCount s.a
      simp only [dockerRaceStep, raceBudget]
      omega
  | B =>
      have h := dockerCallerStep_budget s.running s.startCount s.b
      simp only [dockerRaceStep, raceBudget]
      omega

theorem dockerRaceRun_budget (sched : List CallerId) :
    ∀ s : DockerRaceState, raceBudget (dockerRaceRun s sched) ≤ raceBudget s := by
  induction sched with
  | nil => intro s; exact le_refl _
  | cons c cs ih =>
      intro s
      calc raceBudget (dockerRaceRun (dockerRaceStep s c) cs)
          ≤ raceBudget (dockerRaceStep s c) := ih _
        _ ≤ raceBudget s := dockerRaceStep_budget s c

/-- C4 amended: there is no lifecycle lock — each concurrent transcribe
caller that observes the container stopped executes its own start
sequence.  Two concurrent callers execute at most two start sequences;
the serialized schedule yields one start, but the racy schedule (both
check before either acts) yields two, each caller proceeding only after
its own check/start. -/
theorem docker_start_race_bound (sched : List CallerId) :
    (dockerRaceRun {} sched).startCount ≤ 2 ∧
    (dockerRaceRun {} [.A, .A, .B, .B]).startCount = 1 ∧
    (dockerRaceRun {} [.B, .A, .B, .A]).startCount = 2 := by
  refine ⟨?_, rfl, rfl⟩
  have h := dockerRaceRun_budget sched {}
  have h0 : raceBudget ({} : DockerRaceState) = 2 := rfl
  rw [h0] at h
  unfold raceBudget at h
  omega

/-- Eleven distinct job ids. -/
def elevenIds : List String :=
  ["j1", "j2", "j3", "j4", "j5", "j6", "j7", "j8", "j9", "j10", "j11"]

/-- A pending job row for a given id. -/
def mkPendingJob (i : String) : Job :=
  { id := i, originalFilename := i, filePath := "/u/" ++ i,
    fileType := "audio", fileSize := 1, model := "base", status := .pending,
    createdAt := 0, updatedAt := 0 }

/-- The reachable state after eleven jobs are processed to successful
completion from an empty queue. -/
def elevenState : OrchestratorState :=
  completeAll ⟨elevenIds.map mkPendingJob, {}⟩ elevenIds 5

/-- C7 counterexample: after eleven completed jobs the store holds
eleven Completed records but `getQueueStatus` reports 10 — the queue
retains only `removeOnComplete = 10` completed entries and the store is
never consulted, so the count is a truncated view. -/
theorem queue_counts_truncated_cex :
    (QueueService.getQueueStatus elevenState.queue).completed = 10 ∧
    countStatus elevenState.store .completed = 11 ∧
    (QueueService.getQueueStatus elevenState.queue).completed ≠
      countStatus elevenState.store .completed :=
  ⟨rfl, rfl, by decide⟩

theorem completeAll_completed_length (now : Nat) :
    ∀ (ids : List String) (st : OrchestratorState),
      st.queue.completedIds.length ≤ removeOnComplete →
      (completeAll st ids now).queue.completedIds.length =
        min (st.queue.completedIds.length + ids.length) removeOnComplete := by
  intro ids
  induction ids with
  | nil =>
      intro st h
      simp [completeAll]
      omega
  | cons i is ih =>
      intro st h
      have hstep :
          (completeJobStep st i "text" "out.txt" now).queue.completedIds.length =
            min (st.queue.completedIds.length + 1) removeOnComplete := by
        simp [completeJobStep, retainCompleted, List.length_take]
        omega
      have hrec := ih (completeJobStep st i "text" "out.txt" now)
        (by rw [hstep]; omega)
      calc (completeAll st (i :: is) now).queue.completedIds.length
          = (completeAll (completeJobStep st i "text" "out.txt" now) is
              now).queue.completedIds.length := rfl
        _ = min ((completeJobStep st i "text" "out.txt" now).queue.completedIds.length
              + is.length) removeOnComplete := hrec
        _ = min (st.queue.completedIds.length + (i :: is).length)
              removeOnComplete := by
            rw [hstep]
            simp only [List.length_cons]
            omega

/-- C7 amended: `getQueueStatus` returns the lengths of the entry lists
the queue currently retains and never consults the Job Record Store;
since BullMQ trims completed entries to `removeOnComplete = 10`, after
`n` successfully completed jobs the reported completed count is
`min n 10`, not the true number of completed jobs. -/
theorem queueStatus_truncated (ids : List String) (store : List Job) (now : Nat) :
    (QueueService.getQueueStatus (completeAll ⟨store, {}⟩ ids now).queue).completed =
      min ids.length removeOnComplete := by
  have h := completeAll_completed_length now ids ⟨store, {}⟩ (Nat.zero_le _)
  simpa using h

/-- C8 counterexample: a transcribe call accepted at time 0 arms the
idle timer at call start; a request lasting 400000 ms (allowed by the
600000 ms request timeout) is still in flight when the timer fires at
300000 ms and stops the container — the backend is reclaimed while an
invoke accepted after the last timer reset is in flight. -/
theorem idle_reclaim_midflight_cex :
    (transcribeBegin 0 ⟨false, none⟩).idleDeadline = some IDLE_TIMEOUT ∧
    (transcribeBegin 0 ⟨false, none⟩).running = true ∧
    IDLE_TIMEOUT < 400000 ∧ 400000 ≤ REQUEST_TIMEOUT ∧
    fireIdle IDLE_TIMEOUT (transcribeBegin 0 ⟨false, none⟩) = ⟨false, none⟩ :=
  ⟨rfl, rfl, by decide, by decide, rfl⟩

/-- C8 amended: the idle timer is reset at the start of every transcribe
call (before the request is sent), not on its success; the handle is
stopped exactly when the armed deadline — idle timeout after the last
call START — fires, even if that call is still in flight; and a call
beginning after reclaim starts the container again (running) and re-arms
the timer. -/
theorem idle_timer_reset_at_start (s : HandleState) (now t : Nat)
    (hfire : (transcribeBegin now s).idleDeadline = some t) :
    t = now + IDLE_TIMEOUT ∧
    (transcribeBegin now s).running = true ∧
    fireIdle t (transcribeBegin now s) = ⟨false, none⟩ ∧
    (transcribeBegin t ⟨false, none⟩).running = true ∧
    (transcribeBegin t ⟨false, none⟩).idleDeadline = some (t + IDLE_TIMEOUT) := by
  have hd : (transcribeBegin now s).idleDeadline = some (now + IDLE_TIMEOUT) := by
    cases hr : s.running <;> simp [transcribeBegin, scheduleIdleStop, hr]
  have ht : t = now + IDLE_TIMEOUT := by
    rw [hd] at hfire
    exact (Option.some.inj hfire).symm
  have hrun : (transcribeBegin now s).running = true := by
    cases hr : s.running <;> simp [transcribeBegin, scheduleIdleStop, hr]
  subst ht
  refine ⟨rfl, hrun, ?_, rfl, rfl⟩
  simp [fireIdle, hd]

/-- C8 witness: the amended theorem at the concrete stopped handle and
call time 0. -/
theorem idle_timer_reset_at_start_witness :
    IDLE_TIMEOUT = 0 + IDLE_TIMEOUT ∧
    (transcribeBegin 0 ⟨false, none⟩).running = true ∧
    fireIdle IDLE_TIMEOUT (transcribeBegin 0 ⟨false, none⟩) = ⟨false, none⟩ ∧
    (transcribeBegin IDLE_TIMEOUT ⟨false, none⟩).running = true ∧
    (transcribeBegin IDLE_TIMEOUT ⟨false, none⟩).idleDeadline =
      some (IDLE_TIMEOUT + IDLE_TIMEOUT) :=
  idle_timer_reset_at_start ⟨false, none⟩ 0 IDLE_TIMEOUT rfl

/-- C9: beyond the required-field presence check, `createJob` fails with
the ValidationFailed error whenever the file at `filePath` does not
exist on disk at submission time, and in that case no job record is
created and nothing is enqueued. -/
theorem createJob_missing_file (fsys : List String) (store : List Job)
    (queued : List String) (d : CreateJobData) (newId : String) (now : Nat)
    (hname : d.originalFilename ≠ "") (hpath : d.filePath ≠ "")
    (hmodel : d.model ≠ "") (hfs : fsExists fsys d.filePath = false) :
    JobService.createJob fsys store queued d newId now =
      (.error (.validation "File does not exist"), store, queued) := by
  have h1 : (d.originalFilename == "" || d.filePath == "" || d.model == "") = false := by
    simp [hname, hpath, hmodel]
  simp [JobService.createJob, h1, hfs]

/-- A concrete well-formed submission payload. -/
def demoCreate : CreateJobData :=
  { originalFilename := "f.mp3", filePath := "/u/f.mp3", fileType := "audio",
    fileSize := 10, model := "base" }

/-- C9 witness: a submission whose file is absent from the (empty) file
system is rejected with the validation error and changes nothing. -/
theorem createJob_missing_file_witness :
    JobService.createJob [] [] [] demoCreate "a" 1 =
      (.error (.validation "File does not exist"), [], []) :=
  createJob_missing_file [] [] [] demoCreate "a" 1 (by decide) (by decide)
    (by decide) rfl

/-- C10: downloading a transcription fails with the validation error
whenever the job is not Completed; fails with NotFound when the job is
Completed but the artifact path is unset (falsy) or the artifact file no
longer exists; and returns the artifact path plus the
`transcription_<original>.txt` download name exactly when the job is
Completed and the artifact exists. -/
theorem downloadTranscription_contract (fsys : List String) (store : List Job)
    (id : String) (job : Job) (hj : findJob store id = some job) :
    (job.status ≠ .completed →
      JobService.downloadTranscription fsys store id =
        .error (.validation "Job is not completed yet")) ∧
    (job.status = .completed →
      (jsTruthy job.transcriptionFilePath &&
        fsExists fsys (job.transcriptionFilePath.getD "")) = false →
      JobService.downloadTranscription fsys store id =
        .error (.notFound "Transcription file" none)) ∧
    (job.status = .completed → ∀ p, job.transcriptionFilePath = some p →
      p ≠ "" → fsExists fsys p = true →
      JobService.downloadTranscription fsys store id =
        .ok (p, "transcription_" ++ job.originalFilename ++ ".txt")) := by
  have hrep : JobService.downloadTranscription fsys store id =
      (if job.status ≠ .completed then
        Except.error (ServiceError.validation "Job is not completed yet")
      else if ¬ (jsTruthy job.transcriptionFilePath &&
          fsExists fsys (job.transcriptionFilePath.getD "")) then
        Except.error (ServiceError.notFound "Transcription file" none)
      else
        Except.ok (job.transcriptionFilePath.getD "",
          "transcription_" ++ job.originalFilename ++ ".txt")) := by
    unfold JobService.downloadTranscription
    rw [hj]
  refine ⟨fun h => ?_, fun hc hb => ?_, fun hc p hp hpne hex => ?_⟩
  · rw [hrep, if_pos h]
  · rw [hrep, if_neg (by simp [hc]), if_pos (by simp [hb])]
  · rw [hrep, if_neg (by simp [hc]),
      if_neg (by simp [hp, jsTruthy, hpne, hex])]
    simp [hp]

/-- A concrete completed job whose artifact exists. -/
def demoCompletedJob : Job :=
  { id := "c", originalFilename := "f.mp3", filePath := "/u/f.mp3",
    fileType := "audio", fileSize := 10, model := "base", status := .completed,
    transcriptionFilePath := some "/t/out.txt", createdAt := 1, updatedAt := 2 }

/-- C10 witness: the download succeeds for a completed job whose
artifact exists, returning path and derived filename. -/
theorem downloadTranscription_contract_witness :
    JobService.downloadTranscription ["/t/out.txt"] [demoCompletedJob] "c" =
      .ok ("/t/out.txt",
        "transcription_" ++ demoCompletedJob.originalFilename ++ ".txt") :=
  (downloadTranscription_contract ["/t/out.txt"] [demoCompletedJob] "c"
    demoCompletedJob rfl).2.2 rfl "/t/out.txt" rfl (by decide) rfl

end STT
